import Mathlib

/-!
Verification development for the scrumtask-cli repository: a shallow
embedding of its domain model (`src/models.rs`), its page-stack navigator
(`src/navigator.rs`), its column formatter
(`src/ui/pages/page_helpers.rs`) and — modelled from the specification,
since `src/db.rs` is not among the provided sources — its data store.
-/

namespace Scrum

/-- Lifecycle status of a work item (`src/models.rs`, enum `Status`).
The Rust type derives `PartialOrd`/`Ord`, which orders variants by
declaration order; Lean's derived `Ord` does the same. -/
inductive Status where
  | Open
  | InProgress
  | Resolved
  | Closed
deriving DecidableEq, Repr, Ord

/-- An epic (`src/models.rs`, struct `Epic`): name, description, status and
the ordered list of owned story ids (`Vec<u32>`, embedded as `List Nat`). -/
structure Epic where
  name : String
  description : String
  status : Status
  stories : List Nat
deriving DecidableEq, Repr

/-- `Epic::new` (`src/models.rs`): status defaults to `Open`, no stories. -/
def Epic.new (name description : String) : Epic :=
  { name := name, description := description, status := Status.Open, stories := [] }

/-- A story (`src/models.rs`, struct `Story`). -/
structure Story where
  name : String
  description : String
  status : Status
deriving DecidableEq, Repr

/-- `Story::new` (`src/models.rs`): status defaults to `Open`. -/
def Story.new (name description : String) : Story :=
  { name := name, description := description, status := Status.Open }

/-- The persisted world (`src/models.rs`, struct `DBState`): id counter and
the two item tables. The Rust `HashMap<u32, _>` tables are embedded as
association lists keyed by `Nat`. -/
structure DBState where
  last_item_id : Nat
  epics : List (Nat × Epic)
  stories : List (Nat × Story)
deriving DecidableEq, Repr

/-- `DBState::new` (`src/models.rs`): counter 0, empty tables. -/
def DBState.new : DBState :=
  { last_item_id := 0, epics := [], stories := [] }

/-- Map removal on the association-list embedding of `HashMap`. -/
def eraseKey {α : Type} (k : Nat) (l : List (Nat × α)) : List (Nat × α) :=
  l.filter (fun p => p.1 != k)

/-- Map insertion (insert-or-replace) on the association-list embedding of
`HashMap`. -/
def insertKey {α : Type} (k : Nat) (v : α) (l : List (Nat × α)) : List (Nat × α) :=
  (k, v) :: eraseKey k l

/-- Modelled from the spec: `src/db.rs` (`JiraDatabase::create_epic`) is not
among the provided sources. Per section 4.1: allocate `last_item_id + 1`,
insert the epic under the new id, return the new id; never fails apart from
persistence I/O, which the embedding does not model. -/
def DBState.create_epic (db : DBState) (epic : Epic) : Nat × DBState :=
  let id := db.last_item_id + 1
  (id, { db with last_item_id := id, epics := insertKey id epic db.epics })

/-- Modelled from the spec: `src/db.rs` (`JiraDatabase::create_story`) is not
among the provided sources. Per section 4.1: fail with `EpicNotFound` if the
epic is absent; otherwise allocate a new id, insert the story, append the new
id to the owning epic's `stories` list, return the id. -/
def DBState.create_story (db : DBState) (story : Story) (epic_id : Nat) :
    Except String (Nat × DBState) :=
  match List.lookup epic_id db.epics with
  | none => Except.error "EpicNotFound"
  | some e =>
    let id := db.last_item_id + 1
    Except.ok (id,
      { db with
        last_item_id := id
        stories := insertKey id story db.stories
        epics := insertKey epic_id { e with stories := e.stories ++ [id] } db.epics })

/-- Modelled from the spec: `src/db.rs` (`JiraDatabase::update_epic_status`)
is not among the provided sources. Fails with `EpicNotFound` if absent;
otherwise overwrites the status. -/
def DBState.update_epic_status (db : DBState) (epic_id : Nat) (status : Status) :
    Except String DBState :=
  match List.lookup epic_id db.epics with
  | none => Except.error "EpicNotFound"
  | some e =>
    Except.ok { db with epics := insertKey epic_id { e with status := status } db.epics }

/-- Modelled from the spec: `src/db.rs` (`JiraDatabase::update_story_status`)
is not among the provided sources. Fails with `StoryNotFound` if absent;
otherwise overwrites the status. -/
def DBState.update_story_status (db : DBState) (story_id : Nat) (status : Status) :
    Except String DBState :=
  match List.lookup story_id db.stories with
  | none => Except.error "StoryNotFound"
  | some s =>
    Except.ok { db with stories := insertKey story_id { s with status := status } db.stories }

/-- Modelled from the spec: `src/db.rs` (`JiraDatabase::delete_epic`) is not
among the provided sources. Fails with `EpicNotFound` if absent; otherwise
removes the epic record and cascades: every story in its `stories` list is
removed from the stories table. -/
def DBState.delete_epic (db : DBState) (epic_id : Nat) : Except String DBState :=
  match List.lookup epic_id db.epics with
  | none => Except.error "EpicNotFound"
  | some e =>
    Except.ok
      { db with
        epics := eraseKey epic_id db.epics
        stories := db.stories.filter (fun p => !(e.stories.contains p.1)) }

/-- Modelled from the spec: `src/db.rs` (`JiraDatabase::delete_story`) is not
among the provided sources. Fails with `EpicNotFound` if the epic is absent;
removes `story_id` from the epic's `stories` list and removes the story
record (silently succeeding if the id was already absent). -/
def DBState.delete_story (db : DBState) (epic_id story_id : Nat) : Except String DBState :=
  match List.lookup epic_id db.epics with
  | none => Except.error "EpicNotFound"
  | some e =>
    Except.ok
      { db with
        epics := insertKey epic_id
          { e with stories := e.stories.filter (fun i => i != story_id) } db.epics
        stories := eraseKey story_id db.stories }

/-- The action vocabulary (`src/models.rs`, enum `Action`). -/
inductive Action where
  | NavigateToEpicDetail (epic_id : Nat)
  | NavigateToStoryDetail (epic_id : Nat) (story_id : Nat)
  | NavigateToPreviousPage
  | CreateEpic
  | UpdateEpicStatus (epic_id : Nat)
  | DeleteEpic (epic_id : Nat)
  | CreateStory (epic_id : Nat)
  | UpdateStoryStatus (story_id : Nat)
  | DeleteStory (epic_id : Nat) (story_id : Nat)
  | Exit
deriving DecidableEq, Repr

/-- A page of the UI, identified by its concrete kind and constructor
arguments (`src/navigator.rs` pushes `HomePage`, `EpicDetail { epic_id }`
and `StoryDetail { epic_id, story_id }`; their rendering lives in the ui
module and carries no state beyond these fields plus the shared db handle,
which the embedding keeps on the navigator). -/
inductive Page where
  | HomePage
  | EpicDetail (epic_id : Nat)
  | StoryDetail (epic_id : Nat) (story_id : Nat)
deriving DecidableEq, Repr

/-- Modelled from the spec: the `Prompts` struct lives in the ui module,
which is not among the provided sources. Per section 6 it is a set of
replaceable callbacks: produce-new-epic, produce-new-story,
produce-status-selection-or-cancel, and boolean delete confirmations (the
navigator's code and tests use the fields `create_epic`, `create_story`,
`update_status`, `delete_epic`, `delete_story`). Each synchronous callback
is embedded as the value its next invocation returns. -/
structure Prompts where
  create_epic : Epic
  create_story : Story
  delete_epic : Bool
  delete_story : Bool
  update_status : Option Status
deriving DecidableEq, Repr

/-- The navigator state (`src/navigator.rs`, struct `Navigator`): the page
stack (`Vec<Box<dyn Page>>`, bottom at index 0, top at the end), the prompt
callbacks, and the shared data-store handle (`Rc<JiraDatabase>`, embedded
as the store state itself since the process holds a single store). -/
structure Navigator where
  pages : List Page
  prompts : Prompts
  db : DBState
deriving DecidableEq, Repr

/-- `Navigator::new` (`src/navigator.rs`): a single-element stack holding
the home page. The Rust code installs `Prompts::new()`, whose closures live
in the missing ui module; the embedding takes the prompts as a parameter. -/
def Navigator.new (db : DBState) (prompts : Prompts) : Navigator :=
  { pages := [Page.HomePage], prompts := prompts, db := db }

/-- `Navigator::get_current_page` (`src/navigator.rs`): `self.pages.last()`. -/
def Navigator.get_current_page (nav : Navigator) : Option Page :=
  nav.pages.getLast?

/-- `Navigator::handle_action` (`src/navigator.rs`). The Rust method mutates
`&mut self` and returns `Result<()>`; the embedding returns the resulting
state together with `none` for `Ok(())` or `some msg` for `Err`. `anyhow`'s
`with_context` on a `Result`/`Option` is embedded as prefixing the context
message; on an `Option`, `with_context` turns `None` into that error. -/
def Navigator.handle_action (nav : Navigator) (action : Action) : Navigator × Option String :=
  match action with
  | Action.NavigateToEpicDetail epic_id =>
    ({ nav with pages := nav.pages ++ [Page.EpicDetail epic_id] }, none)
  | Action.NavigateToStoryDetail epic_id story_id =>
    ({ nav with pages := nav.pages ++ [Page.StoryDetail epic_id story_id] }, none)
  | Action.NavigateToPreviousPage =>
    ({ nav with pages := nav.pages.dropLast }, none)
  | Action.CreateEpic =>
    let r := nav.db.create_epic nav.prompts.create_epic
    ({ nav with db := r.2 }, none)
  | Action.UpdateEpicStatus epic_id =>
    match nav.prompts.update_status with
    | none => (nav, some ("invalid status: " ++ toString epic_id))
    | some status =>
      match nav.db.update_epic_status epic_id status with
      | Except.error e => (nav, some e)
      | Except.ok db' => ({ nav with db := db' }, none)
  | Action.DeleteEpic epic_id =>
    match nav.db.delete_epic epic_id with
    | Except.error e =>
      (nav, some ("failed to delete epic: " ++ toString epic_id ++ ": " ++ e))
    | Except.ok db' => ({ nav with db := db' }, none)
  | Action.CreateStory epic_id =>
    match nav.db.create_story nav.prompts.create_story epic_id with
    | Except.error e =>
      (nav, some ("failed to create story: " ++ toString epic_id ++ ": " ++ e))
    | Except.ok r => ({ nav with db := r.2 }, none)
  | Action.UpdateStoryStatus story_id =>
    match nav.prompts.update_status with
    | none => (nav, some ("invalid status: " ++ toString story_id))
    | some status =>
      match nav.db.update_story_status story_id status with
      | Except.error e => (nav, some e)
      | Except.ok db' => ({ nav with db := db' }, none)
  | Action.DeleteStory epic_id story_id =>
    if nav.prompts.delete_story then
      match nav.db.delete_story epic_id story_id with
      | Except.error e =>
        (nav, some ("failed to delete story: " ++ toString story_id ++ ": " ++ e))
      | Except.ok db' => ({ nav with db := db' }, none)
    else (nav, none)
  | Action.Exit =>
    ({ nav with pages := [] }, none)

/-- The navigator states reachable from the initial state by handling any
sequence of actions. Each step may install fresh prompt callbacks
(`set_prompts`, and the fact that a user may answer each prompt
differently), which only widens the reachable set. -/
inductive Reachable : Navigator → Prop where
  | new (db : DBState) (prompts : Prompts) : Reachable (Navigator.new db prompts)
  | step (action : Action) (prompts : Prompts) {nav : Navigator} :
      Reachable nav →
      Reachable ({ nav with prompts := prompts }.handle_action action).1

/-- `Ellipse::truncate_ellipse` from the `ellipse` crate, used by
`get_column_string`: if the text has at most `n` characters it is returned
unchanged, otherwise its first `n` characters are kept and `"..."` is
appended. -/
def truncate_ellipse (text : List Char) (n : Nat) : List Char :=
  if text.length ≤ n then text else text.take n ++ ['.', '.', '.']

/-- `get_column_string` (`src/ui/pages/page_helpers.rs`). Text is embedded
as a list of characters; the Rust code measures `text.len()` in bytes while
`truncate_ellipse` counts characters, which agree on the ASCII texts the
claim quantifies over. -/
def get_column_string (text : List Char) (width : Nat) : List Char :=
  match width with
  | 0 => []
  | 1 => ['.']
  | 2 => ['.', '.']
  | 3 => ['.', '.', '.']
  | _ =>
    let length := text.length
    if width = length then text
    else if width > length then text ++ List.replicate (width - length) ' '
    else truncate_ellipse text (width - 3)

/-- The column-string behaviour as the claim describes it, written
independently of the source for comparison: widths 0 to 3 yield that many
dots; a shorter text is right-padded with spaces; an equal-length text is
returned unchanged; a longer text is truncated to `width - 3` characters
followed by three dots. -/
def column_string_spec (text : List Char) (width : Nat) : List Char :=
  if width ≤ 3 then List.replicate width '.'
  else if text.length < width then text ++ List.replicate (width - text.length) ' '
  else if text.length = width then text
  else text.take (width - 3) ++ ['.', '.', '.']

/-- A data-store operation, for stating properties of arbitrary operation
sequences against the store (the six mutating operations of section 4.1). -/
inductive DBOp where
  | CreateEpic (epic : Epic)
  | CreateStory (story : Story) (epic_id : Nat)
  | UpdateEpicStatus (epic_id : Nat) (status : Status)
  | UpdateStoryStatus (story_id : Nat) (status : Status)
  | DeleteEpic (epic_id : Nat)
  | DeleteStory (epic_id : Nat) (story_id : Nat)
deriving DecidableEq, Repr

/-- Run one store operation: the resulting state (unchanged when the
operation fails) together with the list of ids issued by a successful
create (empty for the other operations and for failed creates). -/
def DBState.runOp (db : DBState) (op : DBOp) : List Nat × DBState :=
  match op with
  | DBOp.CreateEpic e =>
    let r := db.create_epic e
    ([r.1], r.2)
  | DBOp.CreateStory s eid =>
    match db.create_story s eid with
    | Except.error _ => ([], db)
    | Except.ok r => ([r.1], r.2)
  | DBOp.UpdateEpicStatus eid st =>
    match db.update_epic_status eid st with
    | Except.error _ => ([], db)
    | Except.ok db' => ([], db')
  | DBOp.UpdateStoryStatus sid st =>
    match db.update_story_status sid st with
    | Except.error _ => ([], db)
    | Except.ok db' => ([], db')
  | DBOp.DeleteEpic eid =>
    match db.delete_epic eid with
    | Except.error _ => ([], db)
    | Except.ok db' => ([], db')
  | DBOp.DeleteStory eid sid =>
    match db.delete_story eid sid with
    | Except.error _ => ([], db)
    | Except.ok db' => ([], db')

/-- Run a sequence of store operations, collecting every issued id in
order. -/
def DBState.runOps (db : DBState) : List DBOp → List Nat × DBState
  | [] => ([], db)
  | op :: ops =>
    let r := db.runOp op
    let rest := r.2.runOps ops
    (r.1 ++ rest.1, rest.2)

/-- Position of a status in the chain Open < InProgress < Resolved <
Closed, written from the spec's words for comparison with the derived
ordering. -/
def Status.chainPos : Status → Nat
  | Status.Open => 0
  | Status.InProgress => 1
  | Status.Resolved => 2
  | Status.Closed => 3

/-- Prompt callbacks that decline every confirmation and cancel the status
selection; a test fixture. -/
def decliningPrompts : Prompts :=
  { create_epic := Epic.new "" ""
    create_story := Story.new "" ""
    delete_epic := false
    delete_story := false
    update_status := none }

/-- A store holding exactly one epic, created under id 1; a test fixture. -/
def oneEpicDB : DBState :=
  (DBState.new.create_epic (Epic.new "a" "b")).2

/-- The navigator state obtained from the initial state by popping the home
page and then pushing an epic-detail page; a test fixture. -/
def poppedHomeNav : Navigator :=
  (Navigator.handle_action
    { (Navigator.handle_action
        { Navigator.new DBState.new decliningPrompts with prompts := decliningPrompts }
        Action.NavigateToPreviousPage).1 with prompts := decliningPrompts }
    (Action.NavigateToEpicDetail 1)).1

/-! Frame lemmas: each persistence action leaves the page stack untouched,
in every branch of its match. -/

theorem pages_update_epic_status (nav : Navigator) (epic_id : Nat) :
    ((nav.handle_action (Action.UpdateEpicStatus epic_id)).1.pages = nav.pages) := by
  simp only [Navigator.handle_action]
  cases nav.prompts.update_status with
  | none => rfl
  | some s => cases h : nav.db.update_epic_status epic_id s <;> simp [h]

theorem pages_update_story_status (nav : Navigator) (story_id : Nat) :
    ((nav.handle_action (Action.UpdateStoryStatus story_id)).1.pages = nav.pages) := by
  simp only [Navigator.handle_action]
  cases nav.prompts.update_status with
  | none => rfl
  | some s => cases h : nav.db.update_story_status story_id s <;> simp [h]

theorem pages_delete_epic (nav : Navigator) (epic_id : Nat) :
    ((nav.handle_action (Action.DeleteEpic epic_id)).1.pages = nav.pages) := by
  simp only [Navigator.handle_action]
  cases nav.db.delete_epic epic_id <;> rfl

theorem pages_create_story (nav : Navigator) (epic_id : Nat) :
    ((nav.handle_action (Action.CreateStory epic_id)).1.pages = nav.pages) := by
  simp only [Navigator.handle_action]
  cases nav.db.create_story nav.prompts.create_story epic_id <;> rfl

theorem pages_delete_story (nav : Navigator) (epic_id story_id : Nat) :
    ((nav.handle_action (Action.DeleteStory epic_id story_id)).1.pages = nav.pages) := by
  simp only [Navigator.handle_action]
  cases nav.prompts.delete_story with
  | false => rfl
  | true => cases nav.db.delete_story epic_id story_id <;> rfl

/-- Claim C6: navigation actions (NavigateToEpicDetail, NavigateToStoryDetail,
NavigateToPreviousPage, Exit) leave the data store unchanged, and
persistence actions (CreateEpic, UpdateEpicStatus, DeleteEpic, CreateStory,
UpdateStoryStatus, DeleteStory) leave the page stack unchanged, for every
navigator state. -/
theorem navigation_persistence_frame (nav : Navigator) (e s : Nat) :
    ((nav.handle_action (Action.NavigateToEpicDetail e)).1.db = nav.db ∧
     (nav.handle_action (Action.NavigateToStoryDetail e s)).1.db = nav.db ∧
     (nav.handle_action Action.NavigateToPreviousPage).1.db = nav.db ∧
     (nav.handle_action Action.Exit).1.db = nav.db) ∧
    ((nav.handle_action Action.CreateEpic).1.pages = nav.pages ∧
     (nav.handle_action (Action.UpdateEpicStatus e)).1.pages = nav.pages ∧
     (nav.handle_action (Action.DeleteEpic e)).1.pages = nav.pages ∧
     (nav.handle_action (Action.CreateStory e)).1.pages = nav.pages ∧
     (nav.handle_action (Action.UpdateStoryStatus s)).1.pages = nav.pages ∧
     (nav.handle_action (Action.DeleteStory e s)).1.pages = nav.pages) :=
  ⟨⟨rfl, rfl, rfl, rfl⟩,
   ⟨rfl, pages_update_epic_status nav e, pages_delete_epic nav e,
    pages_create_story nav e, pages_update_story_status nav s,
    pages_delete_story nav e s⟩⟩

/-- Claim C1: handling DeleteEpic never consults the delete-confirmation
prompt — with prompts that decline every confirmation, the targeted epic is
still deleted from the store and the call succeeds. (This records the code
bug: the arm's own comment says the user is prompted, and the navigator
tests install a `delete_epic` confirmation callback, but the code calls
`store.delete_epic` unconditionally. The DeleteStory arm does consult the
prompt: declining it leaves the store untouched.) -/
theorem delete_epic_ignores_declined_prompt :
    decliningPrompts.delete_epic = false ∧
    ((Navigator.new oneEpicDB decliningPrompts).handle_action
        (Action.DeleteEpic 1)).2 = none ∧
    ((Navigator.new oneEpicDB decliningPrompts).handle_action
        (Action.DeleteEpic 1)).1.db.epics = [] ∧
    ((Navigator.new oneEpicDB decliningPrompts).handle_action
        (Action.DeleteStory 1 2)).1.db = oneEpicDB := by
  refine ⟨rfl, ?_, ?_, ?_⟩ <;> decide

/-- Claim C2, counterexample: when the update-status prompt yields no
selection, handling UpdateEpicStatus is not a silent cancellation — the
call returns an error (anyhow context "invalid status: {id}"), refuting
"returns success (no error)". -/
theorem update_status_cancel_returns_error :
    ((Navigator.new oneEpicDB decliningPrompts).handle_action
        (Action.UpdateEpicStatus 1)).2 = some ("invalid status: " ++ toString (1 : Nat)) := by
  decide

/-- Claim C2, amended: when the update-status prompt yields no selection,
handling UpdateEpicStatus or UpdateStoryStatus makes no store call and
leaves the whole navigator state (stack, store, statuses) unchanged, but
returns an error "invalid status: {id}" rather than success. -/
theorem update_status_cancel_no_store_call (nav : Navigator) (epic_id story_id : Nat)
    (h : nav.prompts.update_status = none) :
    nav.handle_action (Action.UpdateEpicStatus epic_id)
      = (nav, some ("invalid status: " ++ toString epic_id)) ∧
    nav.handle_action (Action.UpdateStoryStatus story_id)
      = (nav, some ("invalid status: " ++ toString story_id)) := by
  simp [Navigator.handle_action, h]

/-- Claim C2, witness: the amended statement at a concrete navigator whose
update-status prompt is cancelled. -/
theorem update_status_cancel_no_store_call_witness :
    (Navigator.new oneEpicDB decliningPrompts).prompts.update_status = none ∧
    ((Navigator.new oneEpicDB decliningPrompts).handle_action (Action.UpdateEpicStatus 1)
        = (Navigator.new oneEpicDB decliningPrompts, some ("invalid status: " ++ toString (1 : Nat))) ∧
     (Navigator.new oneEpicDB decliningPrompts).handle_action (Action.UpdateStoryStatus 2)
        = (Navigator.new oneEpicDB decliningPrompts, some ("invalid status: " ++ toString (2 : Nat)))) :=
  ⟨rfl, update_status_cancel_no_store_call (Navigator.new oneEpicDB decliningPrompts) 1 2 rfl⟩

/-- Claim C4: from the initial single-page stack, pushing EpicDetail then
StoryDetail then popping twice returns to a single-page stack whose top is
the Home page; and popping never errors, removes at most the top page
(`dropLast`), and in particular is a no-op on the empty stack. -/
theorem navigation_round_trip (db : DBState) (prompts : Prompts)
    (nav : Navigator) (epic_id story_id : Nat) :
    (((((Navigator.new db prompts).handle_action
          (Action.NavigateToEpicDetail epic_id)).1.handle_action
          (Action.NavigateToStoryDetail epic_id story_id)).1.handle_action
          Action.NavigateToPreviousPage).1.handle_action
          Action.NavigateToPreviousPage).1.pages = [Page.HomePage] ∧
    (((((Navigator.new db prompts).handle_action
          (Action.NavigateToEpicDetail epic_id)).1.handle_action
          (Action.NavigateToStoryDetail epic_id story_id)).1.handle_action
          Action.NavigateToPreviousPage).1.handle_action
          Action.NavigateToPreviousPage).1.get_current_page = some Page.HomePage ∧
    (nav.handle_action Action.NavigateToPreviousPage).2 = none ∧
    (nav.handle_action Action.NavigateToPreviousPage).1.pages = nav.pages.dropLast ∧
    (({ nav with pages := [] }).handle_action Action.NavigateToPreviousPage).1.pages = [] :=
  ⟨rfl, rfl, rfl, rfl, rfl⟩

/-- Claim C7: handling Exit clears the page stack entirely and succeeds, at
any stack depth, after which get_current_page returns none. -/
theorem exit_clears_pages (nav : Navigator) :
    nav.handle_action Action.Exit = ({ nav with pages := [] }, none) ∧
    (nav.handle_action Action.Exit).1.pages = [] ∧
    (nav.handle_action Action.Exit).1.get_current_page = none :=
  ⟨rfl, rfl, rfl⟩

/-- Claim C9: the derived comparison on Status agrees with the chain
Open < InProgress < Resolved < Closed — it coincides with the natural-number
comparison of chain positions (hence is a total order), and each adjacent
pair of the chain compares as less-than. -/
theorem status_order_chain (a b : Status) :
    compare a b = compare a.chainPos b.chainPos ∧
    compare Status.Open Status.InProgress = Ordering.lt ∧
    compare Status.InProgress Status.Resolved = Ordering.lt ∧
    compare Status.Resolved Status.Closed = Ordering.lt := by
  refine ⟨?_, by decide, by decide, by decide⟩
  cases a <;> cases b <;> decide

/-- Claim C3: whenever handle_action returns an error, the page stack — in
fact the whole navigator state — is exactly as it was before the call: no
partial stack mutation happens before the failing store or prompt
operation. -/
theorem handle_action_error_preserves_pages (nav : Navigator) (a : Action)
    (h : (nav.handle_action a).2 ≠ none) :
    (nav.handle_action a).1.pages = nav.pages ∧ (nav.handle_action a).1 = nav := by
  cases a with
  | NavigateToEpicDetail e => simp [Navigator.handle_action] at h
  | NavigateToStoryDetail e s => simp [Navigator.handle_action] at h
  | NavigateToPreviousPage => simp [Navigator.handle_action] at h
  | CreateEpic => simp [Navigator.handle_action] at h
  | UpdateEpicStatus e =>
    simp only [Navigator.handle_action] at h ⊢
    cases hu : nav.prompts.update_status with
    | none => simp [hu]
    | some st =>
      cases hr : nav.db.update_epic_status e st with
      | error msg => simp [hu, hr]
      | ok db' => simp [hu, hr] at h
  | DeleteEpic e =>
    simp only [Navigator.handle_action] at h ⊢
    cases hr : nav.db.delete_epic e with
    | error msg => simp [hr]
    | ok db' => simp [hr] at h
  | CreateStory e =>
    simp only [Navigator.handle_action] at h ⊢
    cases hr : nav.db.create_story nav.prompts.create_story e with
    | error msg => simp [hr]
    | ok r => simp [hr] at h
  | UpdateStoryStatus s =>
    simp only [Navigator.handle_action] at h ⊢
    cases hu : nav.prompts.update_status with
    | none => simp [hu]
    | some st =>
      cases hr : nav.db.update_story_status s st with
      | error msg => simp [hu, hr]
      | ok db' => simp [hu, hr] at h
  | DeleteStory e s =>
    simp only [Navigator.handle_action] at h ⊢
    cases hb : nav.prompts.delete_story with
    | false => simp [hb] at h
    | true =>
      cases hr : nav.db.delete_story e s with
      | error msg => simp [hb, hr]
      | ok db' => simp [hb, hr] at h
  | Exit => simp [Navigator.handle_action] at h

/-- Claim C3, witness: a concrete failing call (cancelled status prompt)
leaves the concrete navigator untouched. -/
theorem handle_action_error_preserves_pages_witness :
    ((Navigator.new oneEpicDB decliningPrompts).handle_action
        (Action.UpdateEpicStatus 1)).2 ≠ none ∧
    (((Navigator.new oneEpicDB decliningPrompts).handle_action
        (Action.UpdateEpicStatus 1)).1.pages
        = (Navigator.new oneEpicDB decliningPrompts).pages ∧
     ((Navigator.new oneEpicDB decliningPrompts).handle_action
        (Action.UpdateEpicStatus 1)).1
        = Navigator.new oneEpicDB decliningPrompts) :=
  ⟨by decide,
   handle_action_error_preserves_pages (Navigator.new oneEpicDB decliningPrompts)
     (Action.UpdateEpicStatus 1) (by decide)⟩

/-! Helper lemmas for the stack-shape invariant of reachable navigator
states. -/

theorem mem_tail_append_singleton {α : Type} {p q : α} {l : List α}
    (h : p ∈ (l ++ [q]).tail) : p ∈ l.tail ∨ p = q := by
  cases l with
  | nil => simp at h
  | cons a t =>
    simp only [List.cons_append, List.tail_cons] at h
    rcases List.mem_append.mp h with h1 | h1
    · exact Or.inl h1
    · simp at h1
      exact Or.inr h1

theorem mem_tail_dropLast {α : Type} {p : α} {l : List α}
    (h : p ∈ l.dropLast.tail) : p ∈ l.tail := by
  cases l with
  | nil => simp at h
  | cons a t =>
    cases t with
    | nil => simp [List.dropLast] at h
    | cons b u =>
      have he : (a :: b :: u).dropLast = a :: (b :: u).dropLast := rfl
      rw [he, List.tail_cons] at h
      exact List.dropLast_subset (b :: u) h

/-- The page stack after any action is the old stack, the old stack without
its top, the empty stack, or the old stack with one non-home page pushed on
top. -/
theorem handle_action_pages_shape (nav : Navigator) (a : Action) :
    (nav.handle_action a).1.pages = nav.pages ∨
    (nav.handle_action a).1.pages = nav.pages.dropLast ∨
    (nav.handle_action a).1.pages = [] ∨
    ∃ p, p ≠ Page.HomePage ∧ (nav.handle_action a).1.pages = nav.pages ++ [p] := by
  cases a with
  | NavigateToEpicDetail e =>
    exact Or.inr (Or.inr (Or.inr ⟨Page.EpicDetail e, fun hc => Page.noConfusion hc, rfl⟩))
  | NavigateToStoryDetail e s =>
    exact Or.inr (Or.inr (Or.inr ⟨Page.StoryDetail e s, fun hc => Page.noConfusion hc, rfl⟩))
  | NavigateToPreviousPage => exact Or.inr (Or.inl rfl)
  | CreateEpic => exact Or.inl rfl
  | UpdateEpicStatus e => exact Or.inl (pages_update_epic_status nav e)
  | DeleteEpic e => exact Or.inl (pages_delete_epic nav e)
  | CreateStory e => exact Or.inl (pages_create_story nav e)
  | UpdateStoryStatus s => exact Or.inl (pages_update_story_status nav s)
  | DeleteStory e s => exact Or.inl (pages_delete_story nav e s)
  | Exit => exact Or.inr (Or.inr (Or.inl rfl))

/-- In every reachable navigator state, no page above the bottom of the
stack is the home page. -/
theorem reachable_tail_no_home (nav : Navigator) (h : Reachable nav) :
    ∀ p ∈ nav.pages.tail, p ≠ Page.HomePage := by
  induction h with
  | new db prompts =>
    intro p hp
    simp [Navigator.new] at hp
  | step a pr hr ih =>
    intro p hp
    rename_i nav'
    rcases handle_action_pages_shape { nav' with prompts := pr } a with h1 | h1 | h1 | ⟨q, hq, h1⟩
    · rw [h1] at hp
      exact ih p hp
    · rw [h1] at hp
      exact ih p (mem_tail_dropLast hp)
    · rw [h1] at hp
      simp at hp
    · rw [h1] at hp
      rcases mem_tail_append_singleton hp with h2 | h2
      · exact ih p h2
      · rw [h2]
        exact hq

/-- Claim C5, counterexample: a navigator state reachable from the initial
state (pop the home page off, then push an epic-detail page) whose stack is
non-empty but whose bottom element is not the home page. -/
theorem home_not_bottom_after_pop_push :
    Reachable poppedHomeNav ∧ poppedHomeNav.pages ≠ [] ∧
    poppedHomeNav.pages.head? ≠ some Page.HomePage :=
  ⟨Reachable.step (Action.NavigateToEpicDetail 1) decliningPrompts
      (Reachable.step Action.NavigateToPreviousPage decliningPrompts
        (Reachable.new DBState.new decliningPrompts)),
   by decide, by decide⟩

/-- Claim C5, amended: in every reachable navigator state, the home page
occurs only at the bottom of the stack — every page above the bottom is not
the home page, and whenever the home page is on the stack at all it is the
bottom element. (Popping past the home page and then pushing yields a
reachable non-empty stack whose bottom is a detail page, so the bottom of a
non-empty stack need not be Home.) -/
theorem home_only_at_bottom (nav : Navigator) (h : Reachable nav) :
    (∀ p ∈ nav.pages.tail, p ≠ Page.HomePage) ∧
    (Page.HomePage ∈ nav.pages → nav.pages.head? = some Page.HomePage) := by
  refine ⟨reachable_tail_no_home nav h, ?_⟩
  intro hmem
  cases hl : nav.pages with
  | nil =>
    rw [hl] at hmem
    simp at hmem
  | cons a t =>
    rw [hl] at hmem
    rcases List.mem_cons.mp hmem with h1 | h1
    · rw [← h1]
      rfl
    · exact absurd rfl
        (reachable_tail_no_home nav h Page.HomePage (by rw [hl]; simpa using h1))

/-- Claim C5, witness: the amended statement at the initial state. -/
theorem home_only_at_bottom_witness :
    Reachable (Navigator.new DBState.new decliningPrompts) ∧
    ((∀ p ∈ (Navigator.new DBState.new decliningPrompts).pages.tail,
        p ≠ Page.HomePage) ∧
     (Page.HomePage ∈ (Navigator.new DBState.new decliningPrompts).pages →
        (Navigator.new DBState.new decliningPrompts).pages.head?
          = some Page.HomePage)) :=
  ⟨Reachable.new DBState.new decliningPrompts,
   home_only_at_bottom (Navigator.new DBState.new decliningPrompts)
     (Reachable.new DBState.new decliningPrompts)⟩

/-! Helper lemmas for id allocation across store-operation sequences. -/

theorem runOp_last_le (db : DBState) (op : DBOp) :
    db.last_item_id ≤ (db.runOp op).2.last_item_id := by
  cases op with
  | CreateEpic e => simp [DBState.runOp, DBState.create_epic]
  | CreateStory s eid =>
    simp only [DBState.runOp, DBState.create_story]
    cases h : List.lookup eid db.epics <;> simp
  | UpdateEpicStatus eid st =>
    simp only [DBState.runOp, DBState.update_epic_status]
    cases h : List.lookup eid db.epics <;> simp
  | UpdateStoryStatus sid st =>
    simp only [DBState.runOp, DBState.update_story_status]
    cases h : List.lookup sid db.stories <;> simp
  | DeleteEpic eid =>
    simp only [DBState.runOp, DBState.delete_epic]
    cases h : List.lookup eid db.epics <;> simp
  | DeleteStory eid sid =>
    simp only [DBState.runOp, DBState.delete_story]
    cases h : List.lookup eid db.epics <;> simp

theorem create_story_ok (db : DBState) (s : Story) (eid : Nat) (r : Nat × DBState)
    (h : db.create_story s eid = Except.ok r) :
    r.1 = db.last_item_id + 1 ∧ r.2.last_item_id = db.last_item_id + 1 := by
  unfold DBState.create_story at h
  cases hl : List.lookup eid db.epics with
  | none => rw [hl] at h; simp at h
  | some e =>
    rw [hl] at h
    simp only [Except.ok.injEq] at h
    rw [← h]
    exact ⟨rfl, rfl⟩

theorem update_epic_status_ok (db : DBState) (eid : Nat) (st : Status) (db' : DBState)
    (h : db.update_epic_status eid st = Except.ok db') :
    db'.last_item_id = db.last_item_id := by
  unfold DBState.update_epic_status at h
  cases hl : List.lookup eid db.epics with
  | none => rw [hl] at h; simp at h
  | some e =>
    rw [hl] at h
    simp only [Except.ok.injEq] at h
    rw [← h]

theorem update_story_status_ok (db : DBState) (sid : Nat) (st : Status) (db' : DBState)
    (h : db.update_story_status sid st = Except.ok db') :
    db'.last_item_id = db.last_item_id := by
  unfold DBState.update_story_status at h
  cases hl : List.lookup sid db.stories with
  | none => rw [hl] at h; simp at h
  | some s =>
    rw [hl] at h
    simp only [Except.ok.injEq] at h
    rw [← h]

theorem delete_epic_ok (db : DBState) (eid : Nat) (db' : DBState)
    (h : db.delete_epic eid = Except.ok db') :
    db'.last_item_id = db.last_item_id := by
  unfold DBState.delete_epic at h
  cases hl : List.lookup eid db.epics with
  | none => rw [hl] at h; simp at h
  | some e =>
    rw [hl] at h
    simp only [Except.ok.injEq] at h
    rw [← h]

theorem delete_story_ok (db : DBState) (eid sid : Nat) (db' : DBState)
    (h : db.delete_story eid sid = Except.ok db') :
    db'.last_item_id = db.last_item_id := by
  unfold DBState.delete_story at h
  cases hl : List.lookup eid db.epics with
  | none => rw [hl] at h; simp at h
  | some e =>
    rw [hl] at h
    simp only [Except.ok.injEq] at h
    rw [← h]

theorem runOp_ids (db : DBState) (op : DBOp) :
    ∀ id ∈ (db.runOp op).1,
      db.last_item_id < id ∧ id ≤ (db.runOp op).2.last_item_id := by
  intro id hid
  cases op with
  | CreateEpic e =>
    simp [DBState.runOp, DBState.create_epic] at hid ⊢
    omega
  | CreateStory s eid =>
    simp only [DBState.runOp] at hid ⊢
    cases hr : db.create_story s eid with
    | error msg =>
      rw [hr] at hid
      simp at hid
    | ok r =>
      rw [hr] at hid
      simp at hid ⊢
      have hc := create_story_ok db s eid r hr
      omega
  | UpdateEpicStatus eid st =>
    simp only [DBState.runOp] at hid
    cases hr : db.update_epic_status eid st with
    | error msg => rw [hr] at hid; simp at hid
    | ok db' => rw [hr] at hid; simp at hid
  | UpdateStoryStatus sid st =>
    simp only [DBState.runOp] at hid
    cases hr : db.update_story_status sid st with
    | error msg => rw [hr] at hid; simp at hid
    | ok db' => rw [hr] at hid; simp at hid
  | DeleteEpic eid =>
    simp only [DBState.runOp] at hid
    cases hr : db.delete_epic eid with
    | error msg => rw [hr] at hid; simp at hid
    | ok db' => rw [hr] at hid; simp at hid
  | DeleteStory eid sid =>
    simp only [DBState.runOp] at hid
    cases hr : db.delete_story eid sid with
    | error msg => rw [hr] at hid; simp at hid
    | ok db' => rw [hr] at hid; simp at hid

theorem runOp_pairwise (db : DBState) (op : DBOp) :
    List.Pairwise (fun a b : Nat => a < b) (db.runOp op).1 := by
  cases op with
  | CreateEpic e => simp [DBState.runOp]
  | CreateStory s eid =>
    simp only [DBState.runOp]
    cases h : db.create_story s eid <;> simp
  | UpdateEpicStatus eid st =>
    simp only [DBState.runOp]
    cases h : db.update_epic_status eid st <;> simp
  | UpdateStoryStatus sid st =>
    simp only [DBState.runOp]
    cases h : db.update_story_status sid st <;> simp
  | DeleteEpic eid =>
    simp only [DBState.runOp]
    cases h : db.delete_epic eid <;> simp
  | DeleteStory eid sid =>
    simp only [DBState.runOp]
    cases h : db.delete_story eid sid <;> simp

theorem runOps_last_le (ops : List DBOp) (db : DBState) :
    db.last_item_id ≤ (db.runOps ops).2.last_item_id := by
  induction ops generalizing db with
  | nil => simp [DBState.runOps]
  | cons op ops ih =>
    simp only [DBState.runOps]
    exact le_trans (runOp_last_le db op) (ih (db.runOp op).2)

theorem runOps_ids_gt (ops : List DBOp) (db : DBState) :
    ∀ id ∈ (db.runOps ops).1, db.last_item_id < id := by
  induction ops generalizing db with
  | nil => simp [DBState.runOps]
  | cons op ops ih =>
    intro id hid
    simp only [DBState.runOps, List.mem_append] at hid
    rcases hid with h1 | h1
    · exact (runOp_ids db op id h1).1
    · exact lt_of_le_of_lt (runOp_last_le db op) (ih (db.runOp op).2 id h1)

/-- Claim C8: in any sequence of store operations, the ids returned by the
successful create operations (epic or story) are issued in strictly
increasing order — hence pairwise distinct, each exceeding every previously
issued id — and deletions interleaved in the sequence never cause an id to
be reused. -/
theorem create_ids_strictly_increasing (db : DBState) (ops : List DBOp) :
    List.Pairwise (fun a b : Nat => a < b) (db.runOps ops).1 ∧
    List.Pairwise (fun a b : Nat => a ≠ b) (db.runOps ops).1 := by
  have key : ∀ (l : List DBOp) (d : DBState),
      List.Pairwise (fun a b : Nat => a < b) (d.runOps l).1 := by
    intro l
    induction l with
    | nil => intro d; simp [DBState.runOps]
    | cons op ops ih =>
      intro d
      simp only [DBState.runOps]
      rw [List.pairwise_append]
      refine ⟨runOp_pairwise d op, ih (d.runOp op).2, ?_⟩
      intro a ha b hb
      exact lt_of_le_of_lt (runOp_ids d op a ha).2 (runOps_ids_gt ops (d.runOp op).2 b hb)
  exact ⟨key ops db, (key ops db).imp Nat.ne_of_lt⟩

theorem column_string_spec_length (text : List Char) (width : Nat) :
    (column_string_spec text width).length = width := by
  unfold column_string_spec
  by_cases h1 : width ≤ 3
  · simp [h1]
  · by_cases h2 : text.length < width
    · simp [h1, h2]
      omega
    · by_cases h3 : text.length = width
      · simp [h1, h2, h3]
      · simp [h1, h2, h3]
        omega

/-- Claim C10: for every text and width, get_column_string agrees with the
claim's description — widths 0 to 3 yield that many dots regardless of the
text, a shorter text is right-padded with spaces, an equal-length text is
returned unchanged, and a longer text is truncated to width minus 3
characters followed by three dots — and the result always has length
exactly width. -/
theorem get_column_string_matches_spec (text : List Char) (width : Nat) :
    get_column_string text width = column_string_spec text width ∧
    (get_column_string text width).length = width := by
  have heq : get_column_string text width = column_string_spec text width := by
    match width with
    | 0 => rfl
    | 1 => rfl
    | 2 => rfl
    | 3 => rfl
    | (w + 4) =>
      show (if w + 4 = text.length then text
            else if w + 4 > text.length then
              text ++ List.replicate (w + 4 - text.length) ' '
            else truncate_ellipse text (w + 4 - 3))
          = column_string_spec text (w + 4)
      unfold column_string_spec truncate_ellipse
      rcases Nat.lt_trichotomy text.length (w + 4) with hlt | hmid | hgt
      · rw [if_neg (by omega), if_pos (by omega), if_neg (by omega), if_pos hlt]
      · rw [if_pos hmid.symm, if_neg (by omega), if_neg (by omega), if_pos hmid]
      · rw [if_neg (by omega), if_neg (by omega), if_neg (by omega),
          if_neg (by omega), if_neg (by omega), if_neg (by omega)]
  exact ⟨heq, by rw [heq]; exact column_string_spec_length text width⟩

end Scrum
